import Mathlib

/-!
Shallow embedding of `src/index.js` of the `cloud-file-storage_backend`
repository: an Express server exposing file upload / listing / deletion,
statistics and file-format aggregation endpoints, a notes CRUD, and a
plaintext-password authentication check, all sharing one in-process
`node-cache` instance.

Modelling conventions:
* Machine-level JS values are embedded structurally: the cache stores a
  `CVal` (the parsed shape of the JSON string the source caches);
  `JSON.stringify` / `JSON.parse` round-trips are the identity on these
  shapes and are not modelled separately.
* The external world (Firestore queries, Cloud Storage enumeration and
  per-file metadata fetches, Mongoose saves) enters each handler as data:
  an `Except String _` is the settled outcome of the corresponding await.
* Concurrent `Promise.all` fan-outs are serialised in list order; every
  theorem below concerns either all-success runs or aggregate values that
  are order-independent, where this serialisation agrees with the source.
-/

namespace CloudFileStorage

/-- A value held by the in-process cache.  The source caches raw signed-URL
strings (`cache.set(fileName, fileURL)`) and JSON-serialised reports; the
serialised shapes are embedded structurally. -/
inductive CVal where
  | str (s : String)
  | filesV (l : List (String × String × String × Nat))
  | statsV (d : Nat) (files : Nat) (bytes : Nat)
  | formatsV (l : List (Option String × Nat))
  | notesV (l : List (String × String × String))
  deriving DecidableEq

/-- One `node-cache` entry: the stored value and, when a TTL was given, the
absolute expiry instant (`now + ttl`).  The source constructs the cache as
`new NodeCache()` (no default TTL), so every `set` in `index.js` stores an
entry with no expiry. -/
structure CacheEntry where
  val : CVal
  expiresAt : Option Nat
  deriving DecidableEq

/-- Modelled from the spec: the `node-cache` key-value store used by
`index.js` is an external library (its code is not under `src/`).  Per spec
section 4.1 it is a string-keyed map whose entries optionally expire;
`set` atomically replaces, `get` misses on absent or expired keys,
`invalidate` (`del`) removes, `invalidateAll` (`flushAll`) clears. -/
structure Cache where
  store : String → Option CacheEntry

def Cache.empty : Cache := ⟨fun _ => none⟩

/-- `cache.set(key, value, ttl?)`: atomically replace the entry for `key`;
with a TTL the entry expires at `now + ttl`, without one it never does. -/
def Cache.set (c : Cache) (k : String) (v : CVal) (ttl : Option Nat) (now : Nat) : Cache :=
  ⟨fun q => if q = k then some ⟨v, ttl.map (now + ·)⟩ else c.store q⟩

/-- An entry with expiry `t` is expired once the clock passes `t`
(node-cache checks `data.t !== 0 && data.t < Date.now()`). -/
def CacheEntry.isExpired (e : CacheEntry) (now : Nat) : Bool :=
  match e.expiresAt with
  | some t => decide (t < now)
  | none => false

/-- `cache.get(key)`: the stored value if present and not expired, else a
miss.  (node-cache lazily deletes an expired entry on access; that deletion
is unobservable through `get`/`has` and is not modelled.) -/
def Cache.get (c : Cache) (k : String) (now : Nat) : Option CVal :=
  match c.store k with
  | some e => if e.isExpired now then none else some e.val
  | none => none

/-- `cache.has(key)` — same presence/expiry check as `get`. -/
def Cache.has (c : Cache) (k : String) (now : Nat) : Bool :=
  (c.get k now).isSome

/-- `cache.del(key)`: remove the entry (a no-op when absent). -/
def Cache.del (c : Cache) (k : String) : Cache :=
  ⟨fun q => if q = k then none else c.store q⟩

/-- Metadata returned by a successful `file.getMetadata()` call: the GCS
`size` (a numeric string, parsed with `parseInt`; absent sizes are modelled
as `none`) and the `contentType`, which may be absent. -/
structure FileMeta where
  size : Option Nat
  contentType : Option String

/-- One object of the storage bucket as seen by the aggregation endpoints:
its name and the settled outcome of its `getMetadata()` fan-out call. -/
structure FileObj where
  name : String
  meta : Except String FileMeta

/-- One Firestore document of the `files` collection, as listed by
`GET /api/files` and read by the delete handler: id, fileName, fileURL and
the upload date (epoch; the source renders it with `toLocaleString`, a
locale-dependent formatting that is not modelled). -/
structure FileDoc where
  id : String
  fileName : String
  fileURL : String
  uploadDate : Nat
  deriving DecidableEq

/-- One Mongoose `Note` document (`_id`, `title`, `text`). -/
structure Note where
  id : String
  title : String
  text : String
  deriving DecidableEq

/-- One Firestore `users` document: plaintext username and password. -/
structure UserRec where
  username : String
  password : String
  deriving DecidableEq

/-- Modelled from the spec: `mimeTypes.js` (the static
content-type-to-format mapping imported by `index.js`) is not under `src/`.
Per the spec's aggregation example it resolves standard image types such as
`image/png` to their short format name and has no entry for
`application/x-unknown` (whose format is obtained by the subtype
fallback). -/
def mimeTypeMapping (ct : String) : Option String :=
  if ct = "image/png" then some "png" else none

/-- Characters before the first `'/'`-terminator (helper mirroring the
segment structure of JS `String.prototype.split("/")`). -/
def takeUntilSlash : List Char → List Char
  | [] => []
  | c :: cs => if c = '/' then [] else c :: takeUntilSlash cs

/-- The characters after the first `'/'`, or `none` when there is no
slash. -/
def afterFirstSlash : List Char → Option (List Char)
  | [] => none
  | c :: cs => if c = '/' then some cs else afterFirstSlash cs

/-- `contentType.split("/")[1]` of the source: the segment between the
first slash and the next one (or the end); `undefined` (here `none`) when
the string has no slash. -/
def jsSubtype (ct : String) : Option String :=
  (afterFirstSlash ct.data).map (fun cs => String.mk (takeUntilSlash cs))

/-- `mimeTypeMapping[contentType] || contentType.split("/")[1]` for a
present content type: the mapped format when the mapping has an entry,
otherwise the subtype fallback (`none` models the JS `undefined` Map key a
subtype-less content type produces). -/
def resolveFormat (ct : String) : Option String :=
  match mimeTypeMapping ct with
  | some f => some f
  | none => jsSubtype ct

/-- `formats.set(format, (formats.get(format) || 0) + 1)` on an
insertion-ordered map embedded as an association list. -/
def bumpFormat (m : List (Option String × Nat)) (k : Option String) :
    List (Option String × Nat) :=
  match m with
  | [] => [(k, 1)]
  | (k', n) :: rest =>
    if k' = k then (k', n + 1) :: rest else (k', n) :: bumpFormat rest k

/-- The `GET /api/file-formats` fan-out body, serialised in list order.
Each file's `getMetadata()` is awaited with NO per-item try/catch, so a
rejected fetch rejects the whole `Promise.all`; an absent `contentType`
makes `contentType.split("/")` throw a `TypeError`, likewise rejecting the
whole computation. -/
def formatsGo (acc : List (Option String × Nat)) :
    List FileObj → Except String (List (Option String × Nat))
  | [] => .ok acc
  | f :: rest =>
    match f.meta with
    | .error e => .error e
    | .ok m =>
      match m.contentType with
      | none => .error "TypeError"
      | some ct => formatsGo (bumpFormat acc (resolveFormat ct)) rest

/-- The format-breakdown aggregation over the bucket's files. -/
def formatsOfFiles (files : List FileObj) : Except String (List (Option String × Nat)) :=
  formatsGo [] files

/-- A file on which the `GET /api/file-formats` loop body throws: its
metadata fetch rejects, or its metadata carries no content type (making
`contentType.split("/")` throw). -/
def formatFatal (f : FileObj) : Prop :=
  (∃ e, f.meta = .error e) ∨ (∃ m, f.meta = .ok m ∧ m.contentType = none)

/-- The byte contribution of one file to `totalUsedBytes` in
`GET /api/statistics`: the per-file loop body catches a failed
`getMetadata()` (contributing nothing, after logging) and skips files
without a (truthy) `size`; `parseInt` of the GCS size string is its numeric
value, and a size of `0` is falsy in JS, so it too contributes `0`. -/
def fileBytes (f : FileObj) : Nat :=
  match f.meta with
  | .ok m =>
    match m.size with
    | some s => s
    | none => 0
  | .error _ => 0

/-- `totalUsedBytes` accumulation of `GET /api/statistics` (the concurrent
`+=` fan-in, serialised; addition is order-independent). -/
def usedBytes (files : List FileObj) : Nat :=
  files.foldl (fun acc f => acc + fileBytes f) 0

/-- The statistics report: `totalDownloads` (size of the `downloads`
collection), `totalFiles` (number of enumerated bucket files — failed
metadata fetches still count here), and the byte sum.  The source serves
`storageUsed = (totalUsedBytes / 2^30).toFixed(2)`; that floating-point GB
rendering is derived from `totalUsedBytes`, which is what is carried. -/
structure Statistics where
  totalDownloads : Nat
  totalFiles : Nat
  totalUsedBytes : Nat
  deriving DecidableEq

/-- The statistics aggregation over the `downloads` count and the bucket's
files. -/
def statisticsOfFiles (downloads : Nat) (files : List FileObj) : Statistics :=
  { totalDownloads := downloads
    totalFiles := files.length
    totalUsedBytes := usedBytes files }

/-- Response bodies of the modelled endpoints. -/
inductive Body where
  | err (s : String)
  | urls (l : List String)
  | filesB (l : List FileDoc)
  | statsB (s : Statistics)
  | formatsB (l : List (Option String × Nat))
  | cached (v : CVal)
  | authOk
  | authFail (m : String)
  | noteB (n : Note)
  | notesB (l : List Note)
  | msgB (s : String)
  deriving DecidableEq

/-- An HTTP response: status code and body. -/
structure Resp where
  status : Nat
  body : Body
  deriving DecidableEq

/-- The serialised statistics value the handler caches. -/
def Statistics.toCVal (s : Statistics) : CVal :=
  .statsV s.totalDownloads s.totalFiles s.totalUsedBytes

/-- The serialised listing value the handler caches. -/
def filesCVal (docs : List FileDoc) : CVal :=
  .filesV (docs.map fun d => (d.id, d.fileName, d.fileURL, d.uploadDate))

/-- The serialised notes value the handlers cache. -/
def notesCVal (ns : List Note) : CVal :=
  .notesV (ns.map fun n => (n.id, n.title, n.text))

/-- The notes list parsed back out of a cached notes value
(`JSON.parse` of what `JSON.stringify` produced). -/
def notesOfCVal : CVal → Option (List Note)
  | .notesV l => some (l.map fun p => ⟨p.1, p.2.1, p.2.2⟩)
  | _ => none

/-- `GET /api/statistics`: serve the cached report when `"statistics"`
hits; otherwise count the `downloads` collection, enumerate the bucket,
fan out the metadata fetches (each failure caught inside the loop), cache
the report with no TTL and serve it.  A failed `downloads` query or bucket
enumeration reaches the outer catch: 500, nothing cached. -/
def apiStatistics (now : Nat) (downloads : Except String Nat)
    (filesE : Except String (List FileObj)) (c : Cache) : Resp × Cache :=
  match c.get "statistics" now with
  | some v => (⟨200, .cached v⟩, c)
  | none =>
    match downloads with
    | .error _ => (⟨500, .err "Failed to fetch statistics"⟩, c)
    | .ok d =>
      match filesE with
      | .error _ => (⟨500, .err "Failed to fetch statistics"⟩, c)
      | .ok files =>
        let stats := statisticsOfFiles d files
        (⟨200, .statsB stats⟩, c.set "statistics" stats.toCVal none now)

/-- `GET /api/file-formats`: serve the cached report when `"file-formats"`
hits; otherwise enumerate the bucket and fan out the metadata fetches
(NO per-item catch), cache and serve the breakdown on success; any
rejection reaches the outer catch: 500, nothing cached. -/
def apiFileFormats (now : Nat) (filesE : Except String (List FileObj))
    (c : Cache) : Resp × Cache :=
  match c.get "file-formats" now with
  | some v => (⟨200, .cached v⟩, c)
  | none =>
    match filesE with
    | .error _ => (⟨500, .err "Failed to fetch file formats"⟩, c)
    | .ok files =>
      match formatsOfFiles files with
      | .error _ => (⟨500, .err "Failed to fetch file formats"⟩, c)
      | .ok fmts => (⟨200, .formatsB fmts⟩, c.set "file-formats" (.formatsV fmts) none now)

/-- `GET /api/files`: serve the cached listing when `"files"` hits;
otherwise map the Firestore snapshot to the listing, cache it with no TTL
and serve it; a failed query: 500, nothing cached. -/
def apiFiles (now : Nat) (snapshot : Except String (List FileDoc))
    (c : Cache) : Resp × Cache :=
  match c.get "files" now with
  | some v => (⟨200, .cached v⟩, c)
  | none =>
    match snapshot with
    | .error _ => (⟨500, .err "Failed to fetch files"⟩, c)
    | .ok docs => (⟨200, .filesB docs⟩, c.set "files" (filesCVal docs) none now)

/-- The `POST /api/upload` per-file loop, serialised in list order: each
entry pairs a file name with the settled outcome of its
save-and-sign-URL sequence; a success stores the raw URL string under the
FILE NAME as cache key (`cache.set(fileName, fileURL)`) and records the
URL; a failure rejects the `Promise.all`: 500.  (The settled-order
interleaving of a mixed-outcome concurrent run is not modelled; all-success
runs, which the theorems below concern, agree with the source.) -/
def uploadGo (now : Nat) :
    List (String × Except String String) → List String → Cache → Resp × Cache
  | [], acc, c => (⟨200, .urls acc.reverse⟩, c)
  | (fileName, .ok url) :: rest, acc, c =>
    uploadGo now rest (url :: acc) (c.set fileName (.str url) none now)
  | (_, .error _) :: _, _, c => (⟨500, .err "Failed to upload files"⟩, c)

/-- `POST /api/upload`: after the length-mismatch validation (400), run the
per-file loop.  (The `!files || !fileNames` falsiness checks never fire for
the well-formed array inputs modelled here: multer always supplies an
array, and an empty array is truthy in JS.) -/
def apiUpload (now : Nat) (fileNames : List String)
    (results : List (Except String String)) (c : Cache) : Resp × Cache :=
  if fileNames.length ≠ results.length then
    (⟨400, .err "Missing required fields or mismatch in file count"⟩, c)
  else uploadGo now (fileNames.zip results) [] c

/-- `DELETE /api/files/:id`: fetch the document (failed query: 500; absent
data: 404), delete the storage object then the document (either failure:
500), then `cache.del("files")` — and ONLY `"files"` — and answer 200. -/
def apiDeleteFile (now : Nat) (docData : Except String (Option FileDoc))
    (storageDel : Except String Unit) (docDel : Except String Unit)
    (c : Cache) : Resp × Cache :=
  match docData with
  | .error _ => (⟨500, .err "Failed to delete file"⟩, c)
  | .ok none => (⟨404, .err "File not found"⟩, c)
  | .ok (some _) =>
    match storageDel with
    | .error _ => (⟨500, .err "Failed to delete file"⟩, c)
    | .ok _ =>
      match docDel with
      | .error _ => (⟨500, .err "Failed to delete file"⟩, c)
      | .ok _ => (⟨200, .msgB "File deleted successfully"⟩, c.del "files")

/-- `GET /api/notes`: serve the cached notes when `"notes"` hits, else
query Mongoose, cache and serve. -/
def apiGetNotes (now : Nat) (dbNotes : Except String (List Note))
    (c : Cache) : Resp × Cache :=
  match c.get "notes" now with
  | some v => (⟨200, .cached v⟩, c)
  | none =>
    match dbNotes with
    | .error e => (⟨500, .err e⟩, c)
    | .ok ns => (⟨200, .notesB ns⟩, c.set "notes" (notesCVal ns) none now)

/-- `POST /api/notes`: validate (`!title || !text` — empty strings are
falsy: 400), save the note, then rebuild the `"notes"` cache entry from
`JSON.parse(cache.get("notes") || "[]")` — an ABSENT entry contributes the
empty list, regardless of the database contents — push the new note and
`cache.set`.  (A non-list raw string cached under `"notes"` would make the
source's `JSON.parse` throw; such a state is modelled as the empty list and
is not reachable in the theorems below.) -/
def apiPostNotes (now : Nat) (title text : String)
    (saveResult : Except String Note) (c : Cache) : Resp × Cache :=
  if title = "" ∨ text = "" then (⟨400, .err "Title and text are required"⟩, c)
  else
    match saveResult with
    | .error e => (⟨500, .err e⟩, c)
    | .ok note =>
      let cachedNotes := ((c.get "notes" now).bind notesOfCVal).getD []
      let newCached := cachedNotes ++ [note]
      (⟨200, .noteB note⟩, c.set "notes" (notesCVal newCached) none now)

/-- `POST /api/authenticate`: the Firestore query
`where("username","==",username).limit(1)` returns the FIRST matching
document in the collection's default order (embedded as the order of the
`users` list); empty result: 401; otherwise compare the stored plaintext
password with strict equality; a failed query: 500. -/
def apiAuthenticate (users : Except String (List UserRec))
    (username password : String) : Resp :=
  match users with
  | .error _ => ⟨500, .err "Failed to authenticate user"⟩
  | .ok us =>
    match (us.filter fun u => u.username == username).head? with
    | none => ⟨401, .authFail "Invalid username or password"⟩
    | some u =>
      if u.password = password then ⟨200, .authOk⟩
      else ⟨401, .authFail "Invalid username or password"⟩

/-- An operation of the cache interface, for stating the store's algebraic
laws (spec section 4.1). -/
inductive CacheOp where
  | setOp (k : String) (v : CVal) (ttl : Option Nat)
  | delOp (k : String)
  | flushOp
  deriving DecidableEq

/-- Whether an operation touches the entry at key `k`. -/
def CacheOp.affectsKey : CacheOp → String → Bool
  | .setOp k' _ _, k => k' == k
  | .delOp k', k => k' == k
  | .flushOp, _ => true

/-- Apply one timestamped operation. -/
def applyOp (c : Cache) : Nat × CacheOp → Cache
  | (t, .setOp k v ttl) => c.set k v ttl t
  | (_, .delOp k) => c.del k
  | (_, .flushOp) => Cache.empty

/-- Apply a timestamped operation sequence left to right. -/
def applyOps (c : Cache) (ops : List (Nat × CacheOp)) : Cache :=
  ops.foldl applyOp c

/-! Concrete fixtures used by witnesses and counterexamples. -/

/-- Spec example item `{size:10, type:"image/png"}`. -/
def pngFile1 : FileObj := ⟨"f1", .ok ⟨some 10, some "image/png"⟩⟩

/-- Spec example item `{size:20, type:"image/png"}`. -/
def pngFile2 : FileObj := ⟨"f2", .ok ⟨some 20, some "image/png"⟩⟩

/-- Spec example item `{size:5, type:"application/x-unknown"}`. -/
def unkFile : FileObj := ⟨"f3", .ok ⟨some 5, some "application/x-unknown"⟩⟩

/-- The spec's three-item example collection. -/
def specItems : List FileObj := [pngFile1, pngFile2, unkFile]

/-- A file whose metadata fetch fails. -/
def brokenFile : FileObj := ⟨"bad", .error "metadata fetch failed"⟩

/-- A file whose metadata carries no content type. -/
def noCTFile : FileObj := ⟨"noct", .ok ⟨some 7, none⟩⟩

/-- A sample cached statistics report. -/
def statsSample : Statistics := ⟨1, 2, 42⟩

/-- A cache holding a statistics report (set at time 0, no TTL). -/
def cacheWithStats : Cache :=
  Cache.empty.set "statistics" statsSample.toCVal none 0

/-- A cache holding all three report entries (set at time 0, no TTL). -/
def cacheWithReports : Cache :=
  ((Cache.empty.set "files" (filesCVal []) none 0).set
    "statistics" statsSample.toCVal none 0).set
    "file-formats" (.formatsV [(some "png", 2)]) none 0

/-- A sample Firestore file document. -/
def docSample : FileDoc := ⟨"id1", "doc.txt", "https://u/doc", 0⟩

/-- A users collection holding two records with the same username and
different passwords. -/
def usersDup : List UserRec := [⟨"alice", "pw1"⟩, ⟨"alice", "pw2"⟩]

/-! Helper lemmas about the cache store and the aggregations. -/

theorem Cache.get_set_self (c : Cache) (k : String) (v : CVal) (now tq : Nat) :
    (c.set k v none now).get k tq = some v := by
  simp [Cache.set, Cache.get, CacheEntry.isExpired]

theorem Cache.get_set_ne (c : Cache) (k k' : String) (v : CVal) (ttl : Option Nat)
    (now tq : Nat) (h : k ≠ k') : (c.set k' v ttl now).get k tq = c.get k tq := by
  simp [Cache.set, Cache.get, h]

theorem Cache.get_del_self (c : Cache) (k : String) (tq : Nat) :
    (c.del k).get k tq = none := by
  simp [Cache.del, Cache.get]

theorem Cache.get_del_ne (c : Cache) (k k' : String) (tq : Nat) (h : k ≠ k') :
    (c.del k').get k tq = c.get k tq := by
  simp [Cache.del, Cache.get, h]

theorem applyOp_store_of_unaffected (p : Nat × CacheOp) (c : Cache) (k : String)
    (h : p.2.affectsKey k = false) : (applyOp c p).store k = c.store k := by
  obtain ⟨t, op⟩ := p
  cases op with
  | setOp k' v ttl =>
    have hne : k' ≠ k := by simpa [CacheOp.affectsKey] using h
    simp [applyOp, Cache.set, hne.symm]
  | delOp k' =>
    have hne : k' ≠ k := by simpa [CacheOp.affectsKey] using h
    simp [applyOp, Cache.del, hne.symm]
  | flushOp => exact absurd h (by simp [CacheOp.affectsKey])

theorem applyOps_store_of_unaffected (ops : List (Nat × CacheOp)) :
    ∀ (c : Cache) (k : String), (∀ p ∈ ops, p.2.affectsKey k = false) →
      (applyOps c ops).store k = c.store k := by
  induction ops with
  | nil => intro c k _; rfl
  | cons p rest ih =>
    intro c k h
    show (applyOps (applyOp c p) rest).store k = c.store k
    rw [ih _ _ (fun q hq => h q (List.mem_cons_of_mem _ hq)),
      applyOp_store_of_unaffected p c k (h p (List.mem_cons_self _ _))]

theorem uploadGo_get_frame (now : Nat) (l : List (String × Except String String)) :
    ∀ (acc : List String) (c : Cache) (k : String) (tq : Nat),
      (∀ p ∈ l, p.1 ≠ k) → ((uploadGo now l acc c).2).get k tq = c.get k tq := by
  induction l with
  | nil => intro acc c k tq _; rfl
  | cons p rest ih =>
    intro acc c k tq h
    obtain ⟨name, r⟩ := p
    cases r with
    | ok url =>
      show ((uploadGo now rest (url :: acc) (c.set name (.str url) none now)).2).get k tq
          = c.get k tq
      rw [ih _ _ _ _ (fun q hq => h q (List.mem_cons_of_mem _ hq))]
      exact Cache.get_set_ne c k name (.str url) none now tq
        (Ne.symm (h (name, Except.ok url) (List.mem_cons_self _ _)))
    | error e => rfl

theorem apiUpload_get_frame (now : Nat) (fileNames : List String)
    (results : List (Except String String)) (c : Cache) (k : String) (tq : Nat)
    (h : k ∉ fileNames) : ((apiUpload now fileNames results c).2).get k tq = c.get k tq := by
  unfold apiUpload
  split
  · rfl
  · refine uploadGo_get_frame now (fileNames.zip results) [] c k tq ?_
    intro p hp
    obtain ⟨a, b⟩ := p
    intro he
    exact h (he ▸ (List.of_mem_zip hp).1)

theorem formatsGo_not_ok_of_fatal (f : FileObj) (hb : formatFatal f) :
    ∀ l : List FileObj, f ∈ l → ∀ acc, (formatsGo acc l).isOk = false := by
  intro l
  induction l with
  | nil => intro hf; cases hf
  | cons a rest ih =>
    intro hf acc
    rcases List.mem_cons.mp hf with h | h
    · subst h
      rcases hb with ⟨e, he⟩ | ⟨m, hm, hc⟩
      · simp [formatsGo, he, Except.isOk, Except.toBool]
      · simp [formatsGo, hm, hc, Except.isOk, Except.toBool]
    · cases ha : a.meta with
      | error e => simp [formatsGo, ha, Except.isOk, Except.toBool]
      | ok m =>
        cases hc : m.contentType with
        | none => simp [formatsGo, ha, hc, Except.isOk, Except.toBool]
        | some ct => simpa [formatsGo, ha, hc] using ih h (bumpFormat acc (resolveFormat ct))

theorem foldl_usedBytes (l : List FileObj) :
    ∀ n : Nat, l.foldl (fun acc f => acc + fileBytes f) n = n + usedBytes l := by
  induction l with
  | nil => intro n; simp [usedBytes]
  | cons a t ih =>
    intro n
    simp only [List.foldl_cons, usedBytes]
    rw [ih (n + fileBytes a), ih (0 + fileBytes a)]
    omega

theorem usedBytes_append (l1 l2 : List FileObj) :
    usedBytes (l1 ++ l2) = usedBytes l1 + usedBytes l2 := by
  show (l1 ++ l2).foldl (fun acc f => acc + fileBytes f) 0 = _
  rw [List.foldl_append, foldl_usedBytes]
  rfl

theorem usedBytes_cons (a : FileObj) (t : List FileObj) :
    usedBytes (a :: t) = fileBytes a + usedBytes t := by
  show (a :: t).foldl (fun acc f => acc + fileBytes f) 0 = _
  rw [List.foldl_cons, foldl_usedBytes]
  omega

/-! Claim theorems. -/

/-- C1: on the item collection `[{size:10, type:"image/png"},
{size:20, type:"image/png"}, {size:5, type:"application/x-unknown"}]` the
statistics aggregation yields `totalFiles = 3` and a used-bytes sum of
`35`, and the format-breakdown aggregation yields exactly the counts
`{png: 2, x-unknown: 1}`, the `x-unknown` key arising from the subtype
fallback because the static mime-type mapping has no entry for
`application/x-unknown`. -/
theorem C1_aggregation_example (d : Nat) :
    statisticsOfFiles d specItems = ⟨d, 3, 35⟩ ∧
    formatsOfFiles specItems = .ok [(some "png", 2), (some "x-unknown", 1)] ∧
    mimeTypeMapping "application/x-unknown" = none ∧
    resolveFormat "application/x-unknown" = jsSubtype "application/x-unknown" ∧
    jsSubtype "application/x-unknown" = some "x-unknown" :=
  ⟨rfl, rfl, rfl, rfl, rfl⟩

/-- C2 counterexample: the claim fails for the format-breakdown report.
With three items of which the middle one's metadata fetch fails, the
format-breakdown computation fails as a whole instead of returning the
other two aggregated (which would have been `{png: 2}`). -/
theorem C2_counterexample :
    (formatsOfFiles [pngFile1, brokenFile, pngFile2]).isOk = false ∧
    formatsOfFiles [pngFile1, pngFile2] = .ok [(some "png", 2)] :=
  ⟨rfl, rfl⟩

/-- C2 amended: only the statistics computation tolerates a single item's
detail-fetch failure — the failing item contributes nothing to the byte sum
(though it still counts in `totalFiles`) and the report is produced; the
format-breakdown computation propagates any single item's failure and fails
as a whole. -/
theorem C2_amended (d : Nat) (pre post : List FileObj) (f : FileObj) (e : String)
    (he : f.meta = .error e) :
    statisticsOfFiles d (pre ++ f :: post)
      = ⟨d, (pre ++ post).length + 1, (statisticsOfFiles d (pre ++ post)).totalUsedBytes⟩ ∧
    (formatsOfFiles (pre ++ f :: post)).isOk = false := by
  constructor
  · simp only [statisticsOfFiles, Statistics.mk.injEq]
    refine ⟨by trivial, by simp [List.length_append]; omega, ?_⟩
    rw [usedBytes_append, usedBytes_cons, usedBytes_append]
    have hb : fileBytes f = 0 := by simp [fileBytes, he]
    omega
  · exact formatsGo_not_ok_of_fatal f (Or.inl ⟨e, he⟩) _ (by simp) []

/-- C2 witness: the amended statement at the concrete three-item collection
whose middle item's metadata fetch fails. -/
theorem C2_amended_witness :
    statisticsOfFiles 0 ([pngFile1] ++ brokenFile :: [pngFile2])
      = ⟨0, ([pngFile1] ++ [pngFile2]).length + 1,
          (statisticsOfFiles 0 ([pngFile1] ++ [pngFile2])).totalUsedBytes⟩ ∧
    (formatsOfFiles ([pngFile1] ++ brokenFile :: [pngFile2])).isOk = false :=
  C2_amended 0 [pngFile1] [pngFile2] brokenFile "metadata fetch failed" rfl

/-- C3 counterexample: a successful upload does NOT invalidate the report
cache keys — with a statistics report cached, uploading `doc.txt`
succeeds (status 200) and the next statistics read still hits the old
cached report instead of recomputing. -/
theorem C3_counterexample :
    (apiUpload 1 ["doc.txt"] [.ok "https://x/d"] cacheWithStats).1.status = 200 ∧
    (apiUpload 1 ["doc.txt"] [.ok "https://x/d"] cacheWithStats).2.get "statistics" 1
      = some statsSample.toCVal ∧
    (apiUpload 1 ["doc.txt"] [.ok "https://x/d"] cacheWithStats).2.has "statistics" 1 = true :=
  ⟨rfl, rfl, rfl⟩

/-- C3 amended: only the delete handler invalidates, and only the listing
key — after a successful delete the `"files"` entry is gone (next listing
read misses) while every other key is untouched; the upload handler
invalidates no report key: it leaves every cache key not among the
uploaded file names exactly as it was. -/
theorem C3_amended (now tq : Nat) (c : Cache) (d : FileDoc)
    (names : List String) (results : List (Except String String)) (k k' : String)
    (hk : k ≠ "files") (hk' : k' ∉ names) :
    (apiDeleteFile now (.ok (some d)) (.ok ()) (.ok ()) c).2.get "files" tq = none ∧
    (apiDeleteFile now (.ok (some d)) (.ok ()) (.ok ()) c).2.get k tq = c.get k tq ∧
    (apiUpload now names results c).2.get k' tq = c.get k' tq := by
  refine ⟨?_, ?_, ?_⟩
  · exact Cache.get_del_self c "files" tq
  · exact Cache.get_del_ne c k "files" tq hk
  · exact apiUpload_get_frame now names results c k' tq hk'

/-- C3 witness: the amended statement with all three report entries cached,
deleting a document and uploading `a.txt`. -/
theorem C3_amended_witness :
    (apiDeleteFile 3 (.ok (some docSample)) (.ok ()) (.ok ())
      cacheWithReports).2.get "files" 9 = none ∧
    (apiDeleteFile 3 (.ok (some docSample)) (.ok ()) (.ok ())
      cacheWithReports).2.get "statistics" 9 = cacheWithReports.get "statistics" 9 ∧
    (apiUpload 3 ["a.txt"] [.ok "https://x/a"]
      cacheWithReports).2.get "file-formats" 9 = cacheWithReports.get "file-formats" 9 :=
  C3_amended 3 9 cacheWithReports docSample ["a.txt"] [.ok "https://x/a"]
    "statistics" "file-formats" (by decide) (by decide)

/-- C4 counterexample: an item whose content type is absent makes the whole
format-breakdown computation throw (`contentType.split` on `undefined`)
instead of being skipped — the report for the remaining items (which alone
would be `{png: 1}`) is NOT produced. -/
theorem C4_counterexample :
    formatsOfFiles [pngFile1, noCTFile] = .error "TypeError" ∧
    formatsOfFiles [pngFile1] = .ok [(some "png", 1)] :=
  ⟨rfl, rfl⟩

/-- C4 amended: an item with an absent content type makes the whole
format-breakdown computation fail rather than being skipped. -/
theorem C4_amended (files : List FileObj) (f : FileObj) (m : FileMeta)
    (hf : f ∈ files) (hm : f.meta = .ok m) (hc : m.contentType = none) :
    (formatsOfFiles files).isOk = false :=
  formatsGo_not_ok_of_fatal f (Or.inr ⟨m, hm, hc⟩) files hf []

/-- C4 witness: the amended statement at a concrete two-item collection
whose second item has no content type. -/
theorem C4_amended_witness :
    (formatsOfFiles [pngFile1, noCTFile]).isOk = false :=
  C4_amended [pngFile1, noCTFile] noCTFile ⟨some 7, none⟩
    (List.mem_cons_of_mem pngFile1 (List.mem_cons_self noCTFile [])) rfl rfl

/-- C5: a failed report computation writes nothing into the cache — when
the statistics, file-formats or files handler answers 500 (failed
enumeration or failed fan-out), the cache it returns is exactly the cache
it was given, so the next read recomputes from scratch. -/
theorem C5_failure_leaves_cache (now : Nat) (c : Cache) (dl : Except String Nat)
    (fe ff : Except String (List FileObj)) (sn : Except String (List FileDoc)) :
    ((apiStatistics now dl fe c).1.status = 500 → (apiStatistics now dl fe c).2 = c) ∧
    ((apiFileFormats now ff c).1.status = 500 → (apiFileFormats now ff c).2 = c) ∧
    ((apiFiles now sn c).1.status = 500 → (apiFiles now sn c).2 = c) := by
  refine ⟨?_, ?_, ?_⟩
  · cases hg : c.get "statistics" now with
    | some v => simp [apiStatistics, hg]
    | none =>
      cases dl with
      | error e => simp [apiStatistics, hg]
      | ok d =>
        cases fe with
        | error e => simp [apiStatistics, hg]
        | ok files => simp [apiStatistics, hg]
  · cases hg : c.get "file-formats" now with
    | some v => simp [apiFileFormats, hg]
    | none =>
      cases ff with
      | error e => simp [apiFileFormats, hg]
      | ok files =>
        cases hf : formatsOfFiles files with
        | error e => simp [apiFileFormats, hg, hf]
        | ok fmts => simp [apiFileFormats, hg, hf]
  · cases hg : c.get "files" now with
    | some v => simp [apiFiles, hg]
    | none =>
      cases sn with
      | error e => simp [apiFiles, hg]
      | ok docs => simp [apiFiles, hg]

/-- C5 witness: failed enumerations at each endpoint leave an empty cache
empty. -/
theorem C5_failure_leaves_cache_witness :
    (apiStatistics 0 (.error "down") (.ok []) Cache.empty).2 = Cache.empty ∧
    (apiFileFormats 0 (.error "down") Cache.empty).2 = Cache.empty ∧
    (apiFiles 0 (.error "down") Cache.empty).2 = Cache.empty :=
  ⟨(C5_failure_leaves_cache 0 Cache.empty (.error "down") (.ok [])
      (.error "down") (.error "down")).1 rfl,
   (C5_failure_leaves_cache 0 Cache.empty (.error "down") (.ok [])
      (.error "down") (.error "down")).2.1 rfl,
   (C5_failure_leaves_cache 0 Cache.empty (.error "down") (.ok [])
      (.error "down") (.error "down")).2.2 rfl⟩

/-- C6: after `set(k, v)` with no TTL, `get(k)` returns exactly `v` at any
later time, through any sequence of further cache operations none of which
touches `k` (no `set k`, no `del k`, no `flushAll`); and an entry stored
with TTL `t` behaves as a miss once the clock passes `t`. -/
theorem C6_get_after_set (k : String) (v : CVal) (c : Cache) (t0 : Nat)
    (ops : List (Nat × CacheOp)) (tq : Nat)
    (h : ∀ p ∈ ops, p.2.affectsKey k = false) :
    (applyOps (c.set k v none t0) ops).get k tq = some v ∧
    ∀ ttl tq2 : Nat, t0 + ttl < tq2 → (c.set k v (some ttl) t0).get k tq2 = none := by
  constructor
  · have hstore : (applyOps (c.set k v none t0) ops).store k = some ⟨v, none⟩ := by
      rw [applyOps_store_of_unaffected ops _ k h]
      simp [Cache.set]
    simp [Cache.get, hstore, CacheEntry.isExpired]
  · intro ttl tq2 hlt
    simp [Cache.set, Cache.get, CacheEntry.isExpired, hlt]

/-- C6 witness: the statement at a concrete key, value, operation sequence
on another key, and a TTL that has expired. -/
theorem C6_get_after_set_witness :
    (applyOps (Cache.empty.set "a" (.str "x") none 0)
        [(1, .setOp "b" (.str "y") none), (2, .delOp "b")]).get "a" 5 = some (.str "x") ∧
    (Cache.empty.set "a" (.str "x") (some 3) 0).get "a" 4 = none :=
  ⟨(C6_get_after_set "a" (.str "x") Cache.empty 0
      [(1, .setOp "b" (.str "y") none), (2, .delOp "b")] 5 (by decide)).1,
   (C6_get_after_set "a" (.str "x") Cache.empty 0 [] 4 (by decide)).2 3 4 (by decide)⟩

/-- C7: on an empty item collection every report endpoint succeeds with an
empty or zero-valued result — empty listing, `totalFiles = 0` with a zero
byte sum, and an empty format map. -/
theorem C7_empty_collection (now d : Nat) :
    (apiFiles now (.ok []) Cache.empty).1 = ⟨200, .filesB []⟩ ∧
    (apiStatistics now (.ok d) (.ok []) Cache.empty).1 = ⟨200, .statsB ⟨d, 0, 0⟩⟩ ∧
    (apiFileFormats now (.ok []) Cache.empty).1 = ⟨200, .formatsB []⟩ :=
  ⟨rfl, rfl, rfl⟩

/-- C8 counterexample: a successful upload does NOT always leave the
`"statistics"` cache entry unchanged — uploading a file NAMED
`statistics` overwrites that cache key with the file's signed URL
(`cache.set(fileName, fileURL)`). -/
theorem C8_counterexample :
    (apiUpload 1 ["statistics"] [.ok "https://x/s"] cacheWithStats).1.status = 200 ∧
    cacheWithStats.get "statistics" 1 = some statsSample.toCVal ∧
    (apiUpload 1 ["statistics"] [.ok "https://x/s"] cacheWithStats).2.get "statistics" 1
      = some (.str "https://x/s") :=
  ⟨rfl, rfl, rfl⟩

/-- C8 amended: provided no uploaded file is named `files`, `statistics`
or `file-formats`, an upload leaves those three cache entries unchanged;
a successful delete removes only the `"files"` key, leaving the
`"statistics"` and `"file-formats"` entries unchanged. -/
theorem C8_amended (now tq : Nat) (c : Cache) (d : FileDoc)
    (names : List String) (results : List (Except String String))
    (hn : "files" ∉ names ∧ "statistics" ∉ names ∧ "file-formats" ∉ names) :
    ((apiUpload now names results c).2.get "files" tq = c.get "files" tq ∧
     (apiUpload now names results c).2.get "statistics" tq = c.get "statistics" tq ∧
     (apiUpload now names results c).2.get "file-formats" tq = c.get "file-formats" tq) ∧
    ((apiDeleteFile now (.ok (some d)) (.ok ()) (.ok ()) c).2.get "files" tq = none ∧
     (apiDeleteFile now (.ok (some d)) (.ok ()) (.ok ()) c).2.get "statistics" tq
       = c.get "statistics" tq ∧
     (apiDeleteFile now (.ok (some d)) (.ok ()) (.ok ()) c).2.get "file-formats" tq
       = c.get "file-formats" tq) := by
  obtain ⟨h1, h2, h3⟩ := hn
  exact ⟨⟨apiUpload_get_frame now names results c "files" tq h1,
          apiUpload_get_frame now names results c "statistics" tq h2,
          apiUpload_get_frame now names results c "file-formats" tq h3⟩,
         ⟨Cache.get_del_self c "files" tq,
          Cache.get_del_ne c "statistics" "files" tq (by decide),
          Cache.get_del_ne c "file-formats" "files" tq (by decide)⟩⟩

/-- C8 witness: the amended statement uploading `photo.png` and deleting a
document, with all three report entries cached. -/
theorem C8_amended_witness :
    ((apiUpload 2 ["photo.png"] [.ok "https://x/p"]
        cacheWithReports).2.get "files" 7 = cacheWithReports.get "files" 7 ∧
     (apiUpload 2 ["photo.png"] [.ok "https://x/p"]
        cacheWithReports).2.get "statistics" 7 = cacheWithReports.get "statistics" 7 ∧
     (apiUpload 2 ["photo.png"] [.ok "https://x/p"]
        cacheWithReports).2.get "file-formats" 7 = cacheWithReports.get "file-formats" 7) ∧
    ((apiDeleteFile 2 (.ok (some docSample)) (.ok ()) (.ok ())
        cacheWithReports).2.get "files" 7 = none ∧
     (apiDeleteFile 2 (.ok (some docSample)) (.ok ()) (.ok ())
        cacheWithReports).2.get "statistics" 7 = cacheWithReports.get "statistics" 7 ∧
     (apiDeleteFile 2 (.ok (some docSample)) (.ok ()) (.ok ())
        cacheWithReports).2.get "file-formats" 7 = cacheWithReports.get "file-formats" 7) :=
  C8_amended 2 7 cacheWithReports docSample ["photo.png"] [.ok "https://x/p"] (by decide)

/-- C9: when the `"notes"` cache key is absent and `POST /api/notes`
succeeds, the resulting `"notes"` cache entry is the one-element list
holding only the new note — regardless of the database contents, as a
subsequent `GET /api/notes` over any database state then serves exactly
that one-note list from the cache. -/
theorem C9_post_note_fills_cache (now tq : Nat) (c : Cache) (title text : String)
    (n : Note) (dbNotes : Except String (List Note))
    (ht : ¬title = "") (hx : ¬text = "") (habs : c.get "notes" now = none) :
    (apiPostNotes now title text (.ok n) c).1 = ⟨200, .noteB n⟩ ∧
    (apiPostNotes now title text (.ok n) c).2.get "notes" tq = some (notesCVal [n]) ∧
    (apiGetNotes tq dbNotes (apiPostNotes now title text (.ok n) c).2).1
      = ⟨200, .cached (notesCVal [n])⟩ := by
  have hcond : ¬(title = "" ∨ text = "") := by simp [ht, hx]
  have hpost : apiPostNotes now title text (.ok n) c
      = (⟨200, .noteB n⟩, c.set "notes" (notesCVal [n]) none now) := by
    simp [apiPostNotes, hcond, habs]
  refine ⟨by rw [hpost], ?_, ?_⟩
  · rw [hpost]
    exact Cache.get_set_self c "notes" (notesCVal [n]) now tq
  · rw [hpost]
    simp [apiGetNotes, Cache.get_set_self]

/-- C9 witness: the statement at an empty cache and a database already
holding two other notes. -/
theorem C9_post_note_fills_cache_witness :
    (apiPostNotes 0 "T" "X" (.ok ⟨"n1", "T", "X"⟩) Cache.empty).1
      = ⟨200, .noteB ⟨"n1", "T", "X"⟩⟩ ∧
    (apiPostNotes 0 "T" "X" (.ok ⟨"n1", "T", "X"⟩) Cache.empty).2.get "notes" 5
      = some (notesCVal [⟨"n1", "T", "X"⟩]) ∧
    (apiGetNotes 5 (.ok [⟨"n2", "a", "b"⟩, ⟨"n3", "c", "d"⟩])
        (apiPostNotes 0 "T" "X" (.ok ⟨"n1", "T", "X"⟩) Cache.empty).2).1
      = ⟨200, .cached (notesCVal [⟨"n1", "T", "X"⟩])⟩ :=
  C9_post_note_fills_cache 0 5 Cache.empty "T" "X" ⟨"n1", "T", "X"⟩
    (.ok [⟨"n2", "a", "b"⟩, ⟨"n3", "c", "d"⟩]) (by decide) (by decide) rfl

/-- C10 counterexample: with two stored records sharing the username
`alice` — passwords `pw1` then `pw2` — authenticating as `alice`/`pw2`
answers 401 even though a stored record matches both the username and the
password: `limit(1)` checks only the first match. -/
theorem C10_counterexample :
    apiAuthenticate (.ok usersDup) "alice" "pw2"
      = ⟨401, .authFail "Invalid username or password"⟩ ∧
    (⟨"alice", "pw2"⟩ : UserRec) ∈ usersDup :=
  ⟨rfl, by decide⟩

/-- C10 amended: the handler answers 200 `{authenticated: true}` iff the
FIRST stored record matching the supplied username exists and its stored
password equals the supplied password exactly; in every other non-error
case it answers 401 `{authenticated: false}`.  (When usernames are unique
this coincides with the original existential reading.) -/
theorem C10_amended (us : List UserRec) (un pw : String) :
    (apiAuthenticate (.ok us) un pw = ⟨200, .authOk⟩ ↔
      ∃ u, (us.filter fun x => x.username == un).head? = some u ∧ u.password = pw) ∧
    (apiAuthenticate (.ok us) un pw ≠ ⟨200, .authOk⟩ →
      apiAuthenticate (.ok us) un pw = ⟨401, .authFail "Invalid username or password"⟩) := by
  cases hh : (us.filter fun x => x.username == un).head? with
  | none =>
    constructor
    · simp [apiAuthenticate, hh]
    · intro _
      simp [apiAuthenticate, hh]
  | some u =>
    by_cases hp : u.password = pw
    · constructor
      · simp [apiAuthenticate, hh, hp]
      · intro hne
        exact (hne (by simp [apiAuthenticate, hh, hp])).elim
    · constructor
      · simp [apiAuthenticate, hh, hp]
      · intro _
        simp [apiAuthenticate, hh, hp]

/-- C10 witness: the amended statement at a one-record store, with the
right and with a wrong password. -/
theorem C10_amended_witness :
    apiAuthenticate (.ok [⟨"bob", "s3cret"⟩]) "bob" "s3cret" = ⟨200, .authOk⟩ ∧
    apiAuthenticate (.ok [⟨"bob", "s3cret"⟩]) "bob" "wrong"
      = ⟨401, .authFail "Invalid username or password"⟩ :=
  ⟨(C10_amended [⟨"bob", "s3cret"⟩] "bob" "s3cret").1.mpr
      ⟨⟨"bob", "s3cret"⟩, by decide, rfl⟩,
   (C10_amended [⟨"bob", "s3cret"⟩] "bob" "wrong").2 (by decide)⟩

end CloudFileStorage
